import Mathlib

/-!
Verification of spacelift-flows-apps/flows-app-honeycomb against its specification.

This file is a shallow embedding of the parts of the app that the claims are
about: the `honeycombFetch` API client (src/utils/honeycombFetch.ts), the
polling loop of the Run Query block (src/blocks/queries/RunQueryV1.ts), the
install/uninstall lifecycle handlers `onSync` and `onDrain` and the inbound
webhook handler `http.onRequest` (src/main.ts), and the trigger subscription
block (src/blocks/triggers/SubscribeToTriggerV1.ts).

Modelling conventions:
- JSON values are a concrete inductive type; property access on a parsed value
  follows JavaScript semantics (absent field is `undefined`, modelled `none`;
  access on `undefined` or `null` throws a TypeError).
- JavaScript truthiness is modelled explicitly (`Json.truthy`, `strFalsy`),
  because the handlers branch on truthiness, not on presence.
- The outcomes of awaited external calls (fetch round trips, the runtime
  JSON.parse) are parameters of the embedded functions; time advances only at
  fetches (by the given round-trip duration) and at sleeps (by exactly the
  poll interval), matching the single-threaded execution model.
- Results whose TypeScript declared type in the source is a concrete record
  (the submission and recipient-creation responses, declared as records with
  a string id) are modelled at that declared type.
- Key-value storage holds the only two keys the app ever uses; every
  storage and network side effect of a lifecycle handler is recorded, in
  program order, in an `Effect` list.
-/

namespace Honeycomb

/-- JSON values as produced by the host runtime when it parses a body. -/
inductive Json where
  | null
  | bool (b : Bool)
  | num (n : Int)
  | str (s : String)
  | arr (elems : List Json)
  | obj (fields : List (String × Json))

/-- Property lookup on a parsed JSON value: `v.key` is `undefined` (`none`)
unless `v` is an object having that key. -/
def Json.getField : Json → String → Option Json
  | .obj fields, key => fields.lookup key
  | _, _ => none

/-- JavaScript truthiness of a JSON value: `null`, `false`, `0` and the empty
string are falsy; objects and arrays (even empty) are truthy. -/
def Json.truthy : Json → Bool
  | .null => false
  | .bool b => b
  | .num n => !(n == 0)
  | .str s => !(s == "")
  | .arr _ => true
  | .obj _ => true

/-- Whether a JSON value is `null`. -/
def Json.isNull : Json → Bool
  | .null => true
  | _ => false

/-- Truthiness of `v.key`: an absent field is `undefined`, which is falsy. -/
def Json.truthyField (v : Json) (key : String) : Bool :=
  match v.getField key with
  | none => false
  | some w => w.truthy

/-- JavaScript falsiness of a possibly-absent string, as tested by `!x` in the
source: `undefined` (absent) and the empty string are both falsy. -/
def strFalsy (o : Option String) : Bool :=
  match o with
  | none => true
  | some s => s == ""

/-- The errors `honeycombFetch` can throw (src/utils/honeycombFetch.ts):
a plain Error wrapping a transport failure (lines 45-49), a
`HoneycombApiError` for a non-2xx response (lines 51-60), or the runtime
SyntaxError thrown by `JSON.parse` on an invalid non-empty success body
(line 68). -/
inductive HcError where
  | transportError (method endpoint cause : String)
  | apiError (method endpoint : String) (statusCode : Nat) (statusText : String)
      (responseBody : String)
  | jsonParseError (msg : String)
deriving DecidableEq

/-- The `message` of each thrown error, exactly as built in the source; for
the runtime SyntaxError the message is whatever the engine produced. -/
def HcError.message : HcError → String
  | .transportError m e c =>
      "Honeycomb API request failed: " ++ m ++ " " ++ e ++ ": " ++ c
  | .apiError m e sc st body =>
      "Honeycomb API error: " ++ m ++ " " ++ e ++ " returned " ++ toString sc
        ++ " " ++ st ++ ": " ++ body
  | .jsonParseError msg => msg

/-- An HTTP response as the code observes it: status, statusText, body text. -/
structure HttpResponse where
  status : Nat
  statusText : String
  body : String
deriving DecidableEq

/-- The `ok` flag of a fetch Response: status in the inclusive range 200-299. -/
def HttpResponse.ok (r : HttpResponse) : Bool :=
  decide (200 ≤ r.status) && decide (r.status ≤ 299)

/-- The outcome of one `fetch` call: a response, or a network-level failure
(DNS, connection, timeout) before any response was received. -/
inductive FetchOutcome where
  | response (r : HttpResponse)
  | networkFailure (cause : String)
deriving DecidableEq

/-- The request URL built by `honeycombFetch` (line 28 of the source). -/
def hcUrl (baseUrl endpoint : String) : String := baseUrl ++ endpoint

/-- The request headers built by `honeycombFetch` (lines 30-36): the
credential header always, the JSON content type only when a body is sent. -/
def hcHeaders (apiKey : String) (bodyPresent : Bool) : List (String × String) :=
  if bodyPresent then
    [("X-Honeycomb-Team", apiKey), ("Content-Type", "application/json")]
  else
    [("X-Honeycomb-Team", apiKey)]

/-- Shallow embedding of `honeycombFetch` (src/utils/honeycombFetch.ts,
lines 38-69). `net` is the outcome of the single `fetch` call and `parse` is
the runtime JSON.parse, returning the SyntaxError message on invalid input.
A fetch rejection becomes a plain Error carrying method, endpoint and cause
in its message; a non-ok response becomes a `HoneycombApiError`; an ok
response yields `undefined` (`none`) for an empty body and otherwise the
parsed JSON value. -/
def honeycombFetch (method endpoint : String) (net : FetchOutcome)
    (parse : String → Except String Json) : Except HcError (Option Json) :=
  match net with
  | .networkFailure cause => .error (.transportError method endpoint cause)
  | .response r =>
    if !r.ok then
      .error (.apiError method endpoint r.status r.statusText r.body)
    else if r.body == "" then
      .ok none
    else
      match parse r.body with
      | .ok v => .ok (some v)
      | .error msg => .error (.jsonParseError msg)

/-- Whether a `honeycombFetch` result is a failure (a thrown error). -/
def isFailure : Except HcError (Option Json) → Bool
  | .error _ => true
  | .ok _ => false

/-- Whether a `honeycombFetch` result is a transport failure. -/
def isTransportFailure : Except HcError (Option Json) → Bool
  | .error (.transportError _ _ _) => true
  | _ => false

/-- Whether a `honeycombFetch` result is a `HoneycombApiError` failure. -/
def isApiFailure : Except HcError (Option Json) → Bool
  | .error (.apiError _ _ _ _ _) => true
  | _ => false

/-- Whether a `honeycombFetch` result is a JSON.parse SyntaxError failure. -/
def isParseFailure : Except HcError (Option Json) → Bool
  | .error (.jsonParseError _) => true
  | _ => false

/-- MAX_POLL_DURATION_MS of the Run Query block. -/
def maxPollDurationMs : Nat := 15000

/-- POLL_INTERVAL_MS of the Run Query block. -/
def pollIntervalMs : Nat := 500

/-- What the poll loop of `runQueryV1.onEvent` can end with: emitting a
complete result, throwing the timeout Error, propagating a fetch error,
a TypeError from reading `.complete` on `undefined` or `null`, or (model
artifact) exhausting the supplied environment steps. -/
inductive RunOutcome where
  | emitted (result : Json)
  | timedOut (message : String)
  | fetchFailed (e : HcError)
  | typeError
  | outOfSteps

/-- Trace of one Run Query invocation: how many poll fetches ran, the elapsed
times (ms since the recorded start) at which each pollInterval sleep began,
the outcome, and the elapsed time when the handler returned or threw. -/
structure PollTrace where
  fetches : Nat
  sleepStarts : List Nat
  outcome : RunOutcome
  endElapsed : Nat

/-- The timeout message thrown after the loop (RunQueryV1.ts lines 70-72):
it interpolates the constant MAX_POLL_DURATION_MS / 1000, the query id and
the result id. -/
def timeoutMessage (maxDurationMs : Nat) (queryId resultId : String) : String :=
  "Query result polling timed out after " ++ toString (maxDurationMs / 1000)
    ++ " seconds. Query ID: " ++ queryId ++ ", Result ID: " ++ resultId

/-- Shallow embedding of the polling loop of `runQueryV1.onEvent`
(RunQueryV1.ts lines 52-72). `elapsed` is `Date.now() - startTime` at the
while test; `steps` supplies, for each successive GET fetch, its round-trip
duration in ms and its `honeycombFetch` result. The loop tests the deadline,
fetches, returns on a truthy `complete`, and otherwise sleeps exactly
`interval` ms before re-testing. Reading `.complete` on `undefined` or
`null` throws a TypeError. -/
def pollLoop (maxDur interval : Nat) (queryId resultId : String) :
    List (Nat × Except HcError (Option Json)) → Nat → PollTrace
  | [], elapsed =>
    if elapsed < maxDur then
      ⟨0, [], .outOfSteps, elapsed⟩
    else
      ⟨0, [], .timedOut (timeoutMessage maxDur queryId resultId), elapsed⟩
  | (d, res) :: rest, elapsed =>
    if elapsed < maxDur then
      match res with
      | .error e => ⟨1, [], .fetchFailed e, elapsed + d⟩
      | .ok none => ⟨1, [], .typeError, elapsed + d⟩
      | .ok (some j) =>
        if j.isNull then
          ⟨1, [], .typeError, elapsed + d⟩
        else if j.truthyField "complete" then
          ⟨1, [], .emitted j, elapsed + d⟩
        else
          let tr := pollLoop maxDur interval queryId resultId rest
              (elapsed + d + interval)
          ⟨tr.fetches + 1, (elapsed + d) :: tr.sleepStarts, tr.outcome,
            tr.endElapsed⟩
    else
      ⟨0, [], .timedOut (timeoutMessage maxDur queryId resultId), elapsed⟩

/-- Shallow embedding of `runQueryV1.onEvent` (RunQueryV1.ts lines 31-73):
submit the query (not retried; errors propagate), record the start time, then
poll. The submission response is modelled at its declared type in the source,
a record with a string id. -/
def runQuery (maxDur interval : Nat) (queryId : String)
    (submit : Except HcError String)
    (steps : List (Nat × Except HcError (Option Json))) : PollTrace :=
  match submit with
  | .error e => ⟨0, [], .fetchFailed e, 0⟩
  | .ok resultId => pollLoop maxDur interval queryId resultId steps 0

/-- Decidable statement that the while test at the top of each iteration
passes for every listed fetch, given the starting elapsed time. -/
def checksPass (maxDur interval : Nat) :
    Nat → List (Nat × Except HcError (Option Json)) → Bool
  | _, [] => true
  | t, (d, _) :: rest =>
    decide (t < maxDur) && checksPass maxDur interval (t + d + interval) rest

/-- A poll step whose fetch succeeded with a non-null result whose `complete`
field is falsy: the loop continues after it. -/
def incompleteStep (p : Nat × Except HcError (Option Json)) : Bool :=
  match p.2 with
  | .ok (some j) => !j.isNull && !(j.truthyField "complete")
  | _ => false

/-- The external key-value storage, restricted to the only two keys the app
ever reads or writes: webhook_recipient_id and webhook_secret. -/
structure Storage where
  recipientId : Option String
  secret : Option String
deriving DecidableEq

/-- The observable storage and upstream side effects of a lifecycle handler,
recorded in program order. -/
inductive Effect where
  | authCheck
  | kvGet (key : String)
  | kvSet (key value : String)
  | kvDelete (key : String)
  | createRecipient (secret : String)
  | deleteRecipient (id : String)
deriving DecidableEq

/-- The status `onSync` returns. -/
inductive SyncStatus where
  | ready
  | failed (description : String)
deriving DecidableEq

/-- Result of an `onSync` run: status, resulting storage, effect trace. -/
structure SyncResult where
  status : SyncStatus
  store : Storage
  effects : List Effect
deriving DecidableEq

/-- Shallow embedding of `onSync` (src/main.ts lines 36-99). Parameters: the
stored state, the outcome of the `GET /1/auth` credential check, the freshly
generated webhook secret, and the outcome of the `POST /1/recipients` call,
modelled at its declared response type (a record with a string id). The
handler validates credentials, short-circuits to ready when the stored
recipient id is truthy, otherwise stores a new secret, creates the recipient
and stores its id; any thrown error is caught and reported as failed with the
error message. -/
def onSync (store : Storage) (authResult : Except HcError (Option Json))
    (newSecret : String) (createResult : Except HcError String) : SyncResult :=
  match authResult with
  | .error e => ⟨.failed e.message, store, [.authCheck]⟩
  | .ok _ =>
    if !(strFalsy store.recipientId) then
      ⟨.ready, store, [.authCheck, .kvGet "webhook_recipient_id"]⟩
    else
      match createResult with
      | .error e =>
        ⟨.failed e.message, { store with secret := some newSecret },
          [.authCheck, .kvGet "webhook_recipient_id",
            .kvSet "webhook_secret" newSecret, .createRecipient newSecret]⟩
      | .ok recipientId =>
        ⟨.ready, { recipientId := some recipientId, secret := some newSecret },
          [.authCheck, .kvGet "webhook_recipient_id",
            .kvSet "webhook_secret" newSecret, .createRecipient newSecret,
            .kvSet "webhook_recipient_id" recipientId]⟩

/-- The status `onDrain` returns. -/
inductive DrainStatus where
  | drained
  | drainingFailed (description : String)
deriving DecidableEq

/-- Result of an `onDrain` run: status, resulting storage, effect trace. -/
structure DrainResult where
  status : DrainStatus
  store : Storage
  effects : List Effect
deriving DecidableEq

/-- The test of src/main.ts line 130: the error is a `HoneycombApiError`
whose statusCode is 404. -/
def HcError.isNotFound : HcError → Bool
  | .apiError _ _ 404 _ _ => true
  | _ => false

/-- Shallow embedding of `onDrain` (src/main.ts lines 101-154). Parameter
`deleteResult` is the outcome of `DELETE /1/recipients/id`. With a falsy
stored recipient id the handler returns drained at once. Otherwise a 404
`HoneycombApiError` from the deletion is swallowed like success; after
success or 404 both storage keys are deleted and the status is drained; any
other error is caught and reported as draining_failed with the error message,
with no storage key touched. -/
def onDrain (store : Storage) (deleteResult : Except HcError (Option Json)) :
    DrainResult :=
  if strFalsy store.recipientId then
    ⟨.drained, store, [.kvGet "webhook_recipient_id"]⟩
  else
    match deleteResult with
    | .ok _ =>
      ⟨.drained, { recipientId := none, secret := none },
        [.kvGet "webhook_recipient_id",
          .deleteRecipient (store.recipientId.getD ""),
          .kvDelete "webhook_recipient_id", .kvDelete "webhook_secret"]⟩
    | .error e =>
      if e.isNotFound then
        ⟨.drained, { recipientId := none, secret := none },
          [.kvGet "webhook_recipient_id",
            .deleteRecipient (store.recipientId.getD ""),
            .kvDelete "webhook_recipient_id", .kvDelete "webhook_secret"]⟩
      else
        ⟨.drainingFailed e.message, store,
          [.kvGet "webhook_recipient_id",
            .deleteRecipient (store.recipientId.getD "")]⟩

/-- A registered `subscribeToTriggerV1` block as returned by `blocks.list`:
its block id and its optional trigger_id config value. -/
structure BlockEntity where
  id : String
  triggerId : Option String
deriving DecidableEq

/-- The filter of src/main.ts lines 197-206: a falsy trigger_id config means
match everything; otherwise the payload id must be truthy and strictly equal
to the configured string, so a non-string or empty id never matches. -/
def matchesTrigger (cfgTriggerId : Option String) (payload : Json) : Bool :=
  if strFalsy cfgTriggerId then
    true
  else
    match payload.getField "id" with
    | some (Json.str s) => !(s == "") && (cfgTriggerId == some s)
    | _ => false

/-- The matching predicate in the words of the claim, for comparison with
`matchesTrigger`: a subscription matches if it has no trigger_id filter, or
if the payload id field equals its trigger_id. -/
def specMatches (cfgTriggerId : Option String) (payload : Json) : Bool :=
  match cfgTriggerId with
  | none => true
  | some f =>
    match payload.getField "id" with
    | some (Json.str s) => f == s
    | _ => false

/-- The amended matching predicate: an absent or empty trigger_id filter
matches everything; otherwise the payload id must be a non-empty string equal
to the filter. -/
def specMatchesAmended (cfgTriggerId : Option String) (payload : Json) : Bool :=
  strFalsy cfgTriggerId ||
    (match payload.getField "id" with
     | some (Json.str s) => !(s == "") && (cfgTriggerId == some s)
     | _ => false)

/-- The 401 condition in the words of the claim, for comparison with the
handler: presented secret absent, stored secret absent, or the two unequal. -/
def specAuthRejects (presented stored : Option String) : Bool :=
  presented.isNone || stored.isNone || !(presented == stored)

/-- The response class of the webhook handler, with the block ids passed to
`messaging.sendToBlocks` on success. -/
inductive HttpResult where
  | unauthorized
  | badRequest
  | success (matchedIds : List String)
deriving DecidableEq

/-- Shallow embedding of `http.onRequest` (src/main.ts lines 157-230).
`storedSecret` is the stored webhook_secret, `registered` the
subscribeToTriggerV1 blocks returned by `blocks.list`, `querySecret` the
secret query parameter of the request, `body` its parsed body. A falsy
presented or stored secret, or a mismatch, yields 401 before the body is
looked at; a falsy body yields 400; otherwise the payload is fanned out to
every registered block passing `matchesTrigger`. The messaging, listing and
respond collaborators are assumed not to throw (the 500 catch-all is not
exercised). -/
def webhookOnRequest (storedSecret : Option String)
    (registered : List BlockEntity) (querySecret : Option String)
    (body : Option Json) : HttpResult :=
  if strFalsy querySecret || strFalsy storedSecret
      || !(decide (querySecret = storedSecret)) then
    .unauthorized
  else
    match body with
    | none => .badRequest
    | some payload =>
      if payload.truthy then
        .success ((registered.filter
          (fun e => matchesTrigger e.triggerId payload)).map BlockEntity.id)
      else
        .badRequest

/-- Shallow embedding of `subscribeToTriggerV1.onInternalMessage`
(SubscribeToTriggerV1.ts lines 18-22): the block re-emits the message data
exactly when the message type is trigger_fired. -/
def onInternalMessage (msgType : String) (data : Json) : Option Json :=
  if msgType == "trigger_fired" then some data else none

/-- A poll result with a false `complete` field. -/
def pollIncomplete : Json := Json.obj [("complete", Json.bool false)]

/-- A poll result with a true `complete` field. -/
def pollComplete : Json :=
  Json.obj [("complete", Json.bool true), ("id", Json.str "res1")]

/-- A webhook trigger payload whose id field is the string t1. -/
def payloadT1 : Json :=
  Json.obj [("id", Json.str "t1"), ("name", Json.str "High latency")]

/-- Unfolding lemma: once the while test fails, the loop exits with the
timeout error at the current elapsed time, whatever steps remain. -/
theorem pollLoop_deadline (maxDur interval : Nat) (qid rid : String)
    (steps : List (Nat × Except HcError (Option Json))) (t : Nat)
    (ht : ¬ t < maxDur) :
    pollLoop maxDur interval qid rid steps t
      = ⟨0, [], .timedOut (timeoutMessage maxDur qid rid), t⟩ := by
  cases steps with
  | nil => simp [pollLoop, ht]
  | cons hd tl =>
    obtain ⟨d, res⟩ := hd
    simp [pollLoop, ht]

/-- Unfolding lemma: the while test passes but the environment supplies no
further step (model artifact). -/
theorem pollLoop_nil (maxDur interval : Nat) (qid rid : String) (t : Nat)
    (ht : t < maxDur) :
    pollLoop maxDur interval qid rid [] t = ⟨0, [], .outOfSteps, t⟩ := by
  simp [pollLoop, ht]

/-- Unfolding lemma: a poll fetch that throws propagates the error out of the
handler. -/
theorem pollLoop_error_step (maxDur interval : Nat) (qid rid : String)
    (d : Nat) (e : HcError) (rest : List (Nat × Except HcError (Option Json)))
    (t : Nat) (ht : t < maxDur) :
    pollLoop maxDur interval qid rid ((d, Except.error e) :: rest) t
      = ⟨1, [], .fetchFailed e, t + d⟩ := by
  simp [pollLoop, ht]

/-- Unfolding lemma: a poll fetch yielding `undefined` makes the read of the
complete field throw a TypeError. -/
theorem pollLoop_undefined_step (maxDur interval : Nat) (qid rid : String)
    (d : Nat) (rest : List (Nat × Except HcError (Option Json)))
    (t : Nat) (ht : t < maxDur) :
    pollLoop maxDur interval qid rid ((d, Except.ok none) :: rest) t
      = ⟨1, [], .typeError, t + d⟩ := by
  simp [pollLoop, ht]

/-- Unfolding lemma: a poll fetch yielding JSON null makes the read of the
complete field throw a TypeError. -/
theorem pollLoop_nullish_step (maxDur interval : Nat) (qid rid : String)
    (d : Nat) (j : Json) (rest : List (Nat × Except HcError (Option Json)))
    (t : Nat) (ht : t < maxDur) (hn : j.isNull = true) :
    pollLoop maxDur interval qid rid ((d, Except.ok (some j)) :: rest) t
      = ⟨1, [], .typeError, t + d⟩ := by
  simp [pollLoop, ht, hn]

/-- Unfolding lemma: a fetch that returns a result with a truthy complete
field makes the loop emit it and return at once. -/
theorem pollLoop_complete_step (maxDur interval : Nat) (qid rid : String)
    (d : Nat) (j : Json) (rest : List (Nat × Except HcError (Option Json)))
    (t : Nat) (ht : t < maxDur) (hn : j.isNull = false)
    (hc : j.truthyField "complete" = true) :
    pollLoop maxDur interval qid rid ((d, Except.ok (some j)) :: rest) t
      = ⟨1, [], .emitted j, t + d⟩ := by
  simp [pollLoop, ht, hn, hc]

/-- Unfolding lemma: a fetch that returns an incomplete result is followed,
unconditionally, by a sleep starting at the fetch completion time. -/
theorem pollLoop_incomplete_step (maxDur interval : Nat) (qid rid : String)
    (d : Nat) (j : Json) (rest : List (Nat × Except HcError (Option Json)))
    (t : Nat) (ht : t < maxDur) (hn : j.isNull = false)
    (hf : j.truthyField "complete" = false) :
    pollLoop maxDur interval qid rid ((d, Except.ok (some j)) :: rest) t
      = ⟨(pollLoop maxDur interval qid rid rest (t + d + interval)).fetches + 1,
          (t + d) :: (pollLoop maxDur interval qid rid rest (t + d + interval)).sleepStarts,
          (pollLoop maxDur interval qid rid rest (t + d + interval)).outcome,
          (pollLoop maxDur interval qid rid rest (t + d + interval)).endElapsed⟩ := by
  simp [pollLoop, ht, hn, hf]

/-- When every supplied step is an incomplete fetch and the supplied steps
cover the whole time budget, the loop ends with the timeout error, thrown at
or after the deadline. -/
theorem pollLoop_times_out (maxDur interval : Nat) (qid rid : String) :
    ∀ (steps : List (Nat × Except HcError (Option Json))) (t : Nat),
      (∀ p ∈ steps, incompleteStep p = true) →
      maxDur ≤ t + steps.length * interval →
      (pollLoop maxDur interval qid rid steps t).outcome
          = RunOutcome.timedOut (timeoutMessage maxDur qid rid)
      ∧ maxDur ≤ (pollLoop maxDur interval qid rid steps t).endElapsed := by
  intro steps
  induction steps with
  | nil =>
    intro t hall hlen
    simp only [List.length_nil, Nat.zero_mul, Nat.add_zero] at hlen
    have ht : ¬ t < maxDur := by omega
    rw [pollLoop_deadline maxDur interval qid rid [] t ht]
    exact ⟨rfl, hlen⟩
  | cons hd tl ih =>
    intro t hall hlen
    by_cases ht : t < maxDur
    · obtain ⟨d0, r0⟩ := hd
      have h0 := hall _ (List.mem_cons_self _ _)
      rcases r0 with e0 | o0
      · simp [incompleteStep] at h0
      rcases o0 with _ | j0
      · simp [incompleteStep] at h0
      simp only [incompleteStep, Bool.and_eq_true, Bool.not_eq_true'] at h0
      rw [pollLoop_incomplete_step maxDur interval qid rid d0 j0 tl t ht h0.1 h0.2]
      have hrec := ih (t + d0 + interval)
        (fun p hp => hall p (List.mem_cons_of_mem _ hp))
        (by rw [List.length_cons, add_one_mul] at hlen; omega)
      exact ⟨hrec.1, hrec.2⟩
    · rw [pollLoop_deadline maxDur interval qid rid _ t ht]
      refine ⟨rfl, ?_⟩
      show maxDur ≤ t
      omega

/-- When every fetch takes at most D ms, every sleep starts strictly before
maxDur + D, and the handler finishes no later than maxDur + D + interval. -/
theorem pollLoop_sleep_bounds (maxDur interval D : Nat) (qid rid : String) :
    ∀ (steps : List (Nat × Except HcError (Option Json))) (t : Nat),
      (∀ p ∈ steps, p.1 ≤ D) →
      ((pollLoop maxDur interval qid rid steps t).sleepStarts.all
          (fun s => decide (s < maxDur + D)) = true)
      ∧ (pollLoop maxDur interval qid rid steps t).endElapsed
          ≤ max t (maxDur + D + interval) := by
  intro steps
  induction steps with
  | nil =>
    intro t hD
    by_cases ht : t < maxDur
    · rw [pollLoop_nil maxDur interval qid rid t ht]
      exact ⟨rfl, le_max_left _ _⟩
    · rw [pollLoop_deadline maxDur interval qid rid [] t ht]
      exact ⟨rfl, le_max_left _ _⟩
  | cons hd tl ih =>
    intro t hD
    by_cases ht : t < maxDur
    · obtain ⟨d0, r0⟩ := hd
      have hd0 : d0 ≤ D := hD _ (List.mem_cons_self _ _)
      have hDtail : ∀ p ∈ tl, p.1 ≤ D :=
        fun p hp => hD p (List.mem_cons_of_mem _ hp)
      have hend : t + d0 ≤ max t (maxDur + D + interval) :=
        le_trans (by omega) (le_max_right _ _)
      rcases r0 with e0 | o0
      · rw [pollLoop_error_step maxDur interval qid rid d0 e0 tl t ht]
        exact ⟨rfl, hend⟩
      rcases o0 with _ | j0
      · rw [pollLoop_undefined_step maxDur interval qid rid d0 tl t ht]
        exact ⟨rfl, hend⟩
      by_cases hn : j0.isNull = true
      · rw [pollLoop_nullish_step maxDur interval qid rid d0 j0 tl t ht hn]
        exact ⟨rfl, hend⟩
      have hn' : j0.isNull = false := by
        cases hv : j0.isNull
        · rfl
        · exact absurd hv hn
      by_cases hcf : j0.truthyField "complete" = true
      · rw [pollLoop_complete_step maxDur interval qid rid d0 j0 tl t ht hn' hcf]
        exact ⟨rfl, hend⟩
      have hcf' : j0.truthyField "complete" = false := by
        cases hv : j0.truthyField "complete"
        · rfl
        · exact absurd hv hcf
      rw [pollLoop_incomplete_step maxDur interval qid rid d0 j0 tl t ht hn' hcf']
      have hrec := ih (t + d0 + interval) hDtail
      constructor
      · show (((t + d0) ::
            (pollLoop maxDur interval qid rid tl (t + d0 + interval)).sleepStarts).all
          (fun s => decide (s < maxDur + D)) = true)
        simp only [List.all_cons, Bool.and_eq_true, decide_eq_true_eq]
        exact ⟨by omega, hrec.1⟩
      · show (pollLoop maxDur interval qid rid tl (t + d0 + interval)).endElapsed
            ≤ max t (maxDur + D + interval)
        have hle : t + d0 + interval ≤ maxDur + D + interval := by omega
        exact le_trans hrec.2
          (le_trans (max_le hle (le_refl _)) (le_max_right _ _))
    · rw [pollLoop_deadline maxDur interval qid rid _ t ht]
      exact ⟨rfl, le_max_left _ _⟩

/-- If the fetches before the n-th all return incomplete results, the n-th
returns a complete one, and the while test passes before each of these
fetches, the loop emits exactly the n-th result after n fetches and n-1
sleeps, at least (n-1) times the interval after the start. -/
theorem pollLoop_reaches_complete (maxDur interval : Nat) (qid rid : String)
    (d : Nat) (j : Json) (rest : List (Nat × Except HcError (Option Json)))
    (hnn : j.isNull = false) (hc : j.truthyField "complete" = true) :
    ∀ (pre : List (Nat × Except HcError (Option Json))) (t : Nat),
      (∀ p ∈ pre, incompleteStep p = true) →
      checksPass maxDur interval t (pre ++ [(d, Except.ok (some j))]) = true →
      (pollLoop maxDur interval qid rid (pre ++ (d, Except.ok (some j)) :: rest) t).outcome
          = RunOutcome.emitted j
      ∧ (pollLoop maxDur interval qid rid (pre ++ (d, Except.ok (some j)) :: rest) t).fetches
          = pre.length + 1
      ∧ (pollLoop maxDur interval qid rid (pre ++ (d, Except.ok (some j)) :: rest) t).sleepStarts.length
          = pre.length
      ∧ t + pre.length * interval
          ≤ (pollLoop maxDur interval qid rid (pre ++ (d, Except.ok (some j)) :: rest) t).endElapsed := by
  intro pre
  induction pre with
  | nil =>
    intro t hpre hchk
    simp only [List.nil_append, checksPass, Bool.and_eq_true,
      decide_eq_true_eq] at hchk
    rw [List.nil_append,
      pollLoop_complete_step maxDur interval qid rid d j rest t hchk.1 hnn hc]
    refine ⟨rfl, rfl, rfl, ?_⟩
    simp only [List.length_nil, Nat.zero_mul, Nat.add_zero]
    exact Nat.le_add_right t d
  | cons hd tl ih =>
    intro t hpre hchk
    obtain ⟨d0, r0⟩ := hd
    have h0 := hpre _ (List.mem_cons_self _ _)
    rcases r0 with e0 | o0
    · simp [incompleteStep] at h0
    rcases o0 with _ | j0
    · simp [incompleteStep] at h0
    simp only [incompleteStep, Bool.and_eq_true, Bool.not_eq_true'] at h0
    simp only [List.cons_append, checksPass, Bool.and_eq_true,
      decide_eq_true_eq] at hchk
    obtain ⟨ht, hchk2⟩ := hchk
    rw [List.cons_append,
      pollLoop_incomplete_step maxDur interval qid rid d0 j0 _ t ht h0.1 h0.2]
    have hrec := ih (t + d0 + interval)
      (fun p hp => hpre p (List.mem_cons_of_mem _ hp)) hchk2
    refine ⟨hrec.1, ?_, ?_, ?_⟩
    · show (pollLoop maxDur interval qid rid
          (tl ++ (d, Except.ok (some j)) :: rest) (t + d0 + interval)).fetches + 1
        = (⟨d0, Except.ok (some j0)⟩ :: tl).length + 1
      rw [hrec.2.1, List.length_cons]
    · show ((t + d0) :: (pollLoop maxDur interval qid rid
          (tl ++ (d, Except.ok (some j)) :: rest) (t + d0 + interval)).sleepStarts).length
        = (⟨d0, Except.ok (some j0)⟩ :: tl).length
      rw [List.length_cons, List.length_cons, hrec.2.2.1]
    · show t + (⟨d0, Except.ok (some j0)⟩ :: tl).length * interval
        ≤ (pollLoop maxDur interval qid rid
            (tl ++ (d, Except.ok (some j)) :: rest) (t + d0 + interval)).endElapsed
      have h4 := hrec.2.2.2
      rw [List.length_cons, add_one_mul]
      omega

/-- Helper: when the truthiness-based auth test of the handler passes, the
response is 401, whatever the body holds. -/
theorem webhook_auth_rejects (stored q : Option String)
    (regs : List BlockEntity) (b : Option Json)
    (h : (strFalsy q || strFalsy stored || !(decide (q = stored))) = true) :
    webhookOnRequest stored regs q b = HttpResult.unauthorized := by
  unfold webhookOnRequest
  rw [if_pos h]

/-- Helper: when the truthiness-based auth test of the handler fails, the
response is never 401. -/
theorem webhook_auth_accepts (stored q : Option String)
    (regs : List BlockEntity) (b : Option Json)
    (h : (strFalsy q || strFalsy stored || !(decide (q = stored))) = false) :
    webhookOnRequest stored regs q b ≠ HttpResult.unauthorized := by
  unfold webhookOnRequest
  rw [if_neg (by simp [h])]
  rcases b with _ | p
  · simp
  · by_cases hp : p.truthy = true
    · simp [hp]
    · simp [hp]

/-- Helper: the Bool condition the handler tests, as the amended condition in
claim language: presented absent or empty, stored absent or empty, or the two
unequal. -/
theorem webhook_auth_cond_iff (q stored : Option String) :
    (strFalsy q || strFalsy stored || !(decide (q = stored))) = true
      ↔ (strFalsy q = true ∨ strFalsy stored = true ∨ q ≠ stored) := by
  cases hq : strFalsy q <;> cases hs : strFalsy stored <;>
    by_cases he : q = stored <;> simp [hq, hs, he]

/-- C1 counterexample: the claim that the elapsed time is checked against
maxDuration immediately before every pollInterval sleep, so that no sleep
starts once the deadline is reached and the last iteration exceeds the budget
by less than a full pollInterval, is false. With a single poll fetch that
takes 15,001 ms and returns an incomplete result, the while test passes at
elapsed 0, the 500 ms sleep then starts at elapsed 15,001 ms — after the
15,000 ms deadline — and the timeout is raised at 15,501 ms, 501 ms past the
budget, more than one full pollInterval. The deadline is only tested before
each fetch, never between a fetch and the following sleep. -/
theorem c1_counterexample :
    (runQuery 15000 500 "q1" (Except.ok "r1")
        [(15001, Except.ok (some pollIncomplete))]).sleepStarts = [15001]
    ∧ (runQuery 15000 500 "q1" (Except.ok "r1")
        [(15001, Except.ok (some pollIncomplete))]).endElapsed = 15501
    ∧ 15000 ≤ 15001
    ∧ 15000 + 500 < 15501 := by
  exact ⟨rfl, rfl, by decide, by decide⟩

/-- C1 amended: the deadline is checked immediately before every poll fetch,
at the top of each loop iteration, not before every sleep; a sleep can start
after the deadline only because the preceding fetch overran it. Hence when
every fetch round trip takes at most D ms, every sleep starts strictly before
maxDuration + D, and the invocation ends no later than maxDuration + D +
pollInterval: the overshoot beyond the budget is bounded by one pollInterval
plus the duration of the final fetch, not by one pollInterval alone. -/
theorem c1_amended (maxDur interval D : Nat) (qid rid : String)
    (steps : List (Nat × Except HcError (Option Json)))
    (hD : ∀ p ∈ steps, p.1 ≤ D) :
    ((runQuery maxDur interval qid (Except.ok rid) steps).sleepStarts.all
        (fun s => decide (s < maxDur + D)) = true)
    ∧ (runQuery maxDur interval qid (Except.ok rid) steps).endElapsed
        ≤ maxDur + D + interval := by
  have h := pollLoop_sleep_bounds maxDur interval D qid rid steps 0 hD
  refine ⟨h.1, ?_⟩
  have h2 := h.2
  rw [max_eq_right (Nat.zero_le _)] at h2
  exact h2

/-- C1 witness: the amended bound instantiated at the slow-fetch run. -/
theorem c1_witness :
    ((runQuery 15000 500 "q1w" (Except.ok "r1w")
        [(15001, Except.ok (some pollIncomplete))]).sleepStarts.all
        (fun s => decide (s < 15000 + 15001)) = true)
    ∧ (runQuery 15000 500 "q1w" (Except.ok "r1w")
        [(15001, Except.ok (some pollIncomplete))]).endElapsed
        ≤ 15000 + 15001 + 500 :=
  c1_amended 15000 500 15001 "q1w" "r1w"
    [(15001, Except.ok (some pollIncomplete))] (by decide)

/-- C2 counterexample: the claim promises that whenever the credential check
succeeds and webhook_recipient_id already holds a value, onSync returns ready
with no POST /1/recipients and no storage write. With the stored value being
the empty string — a value, but a falsy one — the handler does not
short-circuit: it writes webhook_secret, issues the POST, and overwrites the
stored id. -/
theorem c2_counterexample :
    (onSync ⟨some "", none⟩ (Except.ok none) "s2" (Except.ok "rid2")).effects
      = [Effect.authCheck, Effect.kvGet "webhook_recipient_id",
          Effect.kvSet "webhook_secret" "s2", Effect.createRecipient "s2",
          Effect.kvSet "webhook_recipient_id" "rid2"] := by
  exact rfl

/-- C2 amended: for every onSync invocation in which the credential check
succeeds and webhook_recipient_id holds a truthy (non-empty) value, the
handler returns ready, leaves storage unchanged, and performs exactly the
credential check and one storage read — in particular no POST /1/recipients
and no storage write or delete, so repeated installs after the id is
persisted create no duplicate recipient. -/
theorem c2_amended (store : Storage) (authVal : Option Json)
    (newSecret : String) (createResult : Except HcError String)
    (h : strFalsy store.recipientId = false) :
    onSync store (Except.ok authVal) newSecret createResult
      = ⟨SyncStatus.ready, store,
          [Effect.authCheck, Effect.kvGet "webhook_recipient_id"]⟩ := by
  simp [onSync, h]

/-- C2 witness: the amended short-circuit at a concrete stored state. -/
theorem c2_witness :
    onSync ⟨some "rid1", some "sec1"⟩ (Except.ok none) "s" (Except.ok "ridX")
      = ⟨SyncStatus.ready, ⟨some "rid1", some "sec1"⟩,
          [Effect.authCheck, Effect.kvGet "webhook_recipient_id"]⟩ :=
  c2_amended ⟨some "rid1", some "sec1"⟩ none "s" (Except.ok "ridX") (by decide)

/-- C3 confirmed: during onDrain with a truthy stored recipient id, a 404
HoneycombApiError from the upstream DELETE is handled exactly like success:
both webhook_recipient_id and webhook_secret are deleted and the status is
drained; any error that is not a 404 HoneycombApiError yields
draining_failed carrying the error message, with the store unchanged and no
storage key deleted. -/
theorem c3_drain_behavior (store : Storage)
    (h : strFalsy store.recipientId = false)
    (m e st bd : String) (err : HcError) (herr : err.isNotFound = false) :
    onDrain store (Except.error (HcError.apiError m e 404 st bd))
      = ⟨DrainStatus.drained, ⟨none, none⟩,
          [Effect.kvGet "webhook_recipient_id",
            Effect.deleteRecipient (store.recipientId.getD ""),
            Effect.kvDelete "webhook_recipient_id",
            Effect.kvDelete "webhook_secret"]⟩
    ∧ onDrain store (Except.error err)
      = ⟨DrainStatus.drainingFailed err.message, store,
          [Effect.kvGet "webhook_recipient_id",
            Effect.deleteRecipient (store.recipientId.getD "")]⟩ := by
  constructor
  · simp [onDrain, h, HcError.isNotFound]
  · simp [onDrain, h, herr]

/-- C3 witness: the drain behavior at a concrete store, a concrete 404 and a
concrete 403. -/
theorem c3_witness :
    onDrain ⟨some "r3", some "s3"⟩
        (Except.error (HcError.apiError "DELETE" "/1/recipients/r3" 404 "Not Found" ""))
      = ⟨DrainStatus.drained, ⟨none, none⟩,
          [Effect.kvGet "webhook_recipient_id", Effect.deleteRecipient "r3",
            Effect.kvDelete "webhook_recipient_id",
            Effect.kvDelete "webhook_secret"]⟩
    ∧ onDrain ⟨some "r3", some "s3"⟩
        (Except.error (HcError.apiError "DELETE" "/1/recipients/r3" 403 "Forbidden" "no"))
      = ⟨DrainStatus.drainingFailed
            (HcError.apiError "DELETE" "/1/recipients/r3" 403 "Forbidden" "no").message,
          ⟨some "r3", some "s3"⟩,
          [Effect.kvGet "webhook_recipient_id", Effect.deleteRecipient "r3"]⟩ :=
  c3_drain_behavior ⟨some "r3", some "s3"⟩ (by decide) "DELETE"
    "/1/recipients/r3" "Not Found" ""
    (HcError.apiError "DELETE" "/1/recipients/r3" 403 "Forbidden" "no")
    (by decide)

/-- C4 counterexample: the claim states the handler responds 401 exactly when
the presented secret is absent, the stored secret is absent, or the two are
unequal. A request presenting the empty-string secret while the stored secret
is also the empty string is rejected 401 by the code, although neither secret
is absent and the two are equal: the code tests JavaScript truthiness, and
the empty string is falsy. -/
theorem c4_counterexample :
    webhookOnRequest (some "") [] (some "") (some (Json.obj []))
        = HttpResult.unauthorized
    ∧ specAuthRejects (some "") (some "") = false := by
  exact ⟨rfl, rfl⟩

/-- C4 amended: the handler responds 401 exactly when the presented secret is
absent or empty, the stored secret is absent or empty, or the two are
unequal; and a 401 decision is independent of the request body, so an
unauthenticated request never reaches body validation or fan-out. -/
theorem c4_amended (stored q : Option String) (regs : List BlockEntity)
    (b b2 : Option Json) :
    (webhookOnRequest stored regs q b = HttpResult.unauthorized
        ↔ (strFalsy q = true ∨ strFalsy stored = true ∨ q ≠ stored))
    ∧ (webhookOnRequest stored regs q b = HttpResult.unauthorized
        → webhookOnRequest stored regs q b2 = HttpResult.unauthorized) := by
  have condOf : ∀ (bb : Option Json),
      webhookOnRequest stored regs q bb = HttpResult.unauthorized →
      (strFalsy q || strFalsy stored || !(decide (q = stored))) = true := by
    intro bb h
    cases hc : (strFalsy q || strFalsy stored || !(decide (q = stored)))
    · exact absurd h (webhook_auth_accepts stored q regs bb hc)
    · rfl
  refine ⟨⟨?_, ?_⟩, ?_⟩
  · intro h
    exact (webhook_auth_cond_iff q stored).mp (condOf b h)
  · intro h
    exact webhook_auth_rejects stored q regs b
      ((webhook_auth_cond_iff q stored).mpr h)
  · intro h
    exact webhook_auth_rejects stored q regs b2 (condOf b h)

/-- C4 witness: mismatching secrets yield 401 at a concrete request. -/
theorem c4_witness :
    webhookOnRequest (some "abc") [] (some "xyz")
        (some (Json.obj [("id", Json.str "t")])) = HttpResult.unauthorized :=
  (c4_amended (some "abc") (some "xyz") []
      (some (Json.obj [("id", Json.str "t")])) none).1.mpr
    (Or.inr (Or.inr (by decide)))

/-- C5 counterexample: the claim states a subscription is delivered iff it
has no trigger_id filter or the payload id equals the filter. A subscription
whose trigger_id config is the present-but-empty string is treated by the
code as having no filter (JavaScript truthiness) and is delivered a payload
with id t1, though the claim-language predicate rejects that pair. -/
theorem c5_counterexample :
    matchesTrigger (some "") payloadT1 = true
    ∧ specMatches (some "") payloadT1 = false
    ∧ webhookOnRequest (some "k5") [⟨"b1", some ""⟩] (some "k5")
        (some payloadT1) = HttpResult.success ["b1"] := by
  exact ⟨rfl, rfl, rfl⟩

/-- C5 amended: on an authenticated request with a truthy payload, the
handler fans out to exactly the registered subscriptions selected by
matchesTrigger; a subscription is selected iff its trigger_id filter is
absent or empty, or the payload id field is a non-empty string equal to the
filter; and a delivered block re-emits the payload. -/
theorem c5_amended (stored : String) (regs : List BlockEntity)
    (payload : Json) (cfg : Option String)
    (hs : stored ≠ "") (hb : payload.truthy = true) :
    webhookOnRequest (some stored) regs (some stored) (some payload)
      = HttpResult.success ((regs.filter
          (fun e => matchesTrigger e.triggerId payload)).map BlockEntity.id)
    ∧ matchesTrigger cfg payload = specMatchesAmended cfg payload
    ∧ onInternalMessage "trigger_fired" payload = some payload := by
  refine ⟨?_, ?_, rfl⟩
  · have h1 : (stored == "") = false := by
      cases hv : stored == ""
      · rfl
      · exact absurd (by simpa using hv) hs
    have hcond : (strFalsy (some stored) || strFalsy (some stored)
        || !(decide ((some stored : Option String) = some stored))) = false := by
      simp [strFalsy, h1]
    unfold webhookOnRequest
    rw [if_neg (by rw [hcond]; exact Bool.false_ne_true)]
    simp [hb]
  · cases hcf : strFalsy cfg <;>
      simp [matchesTrigger, specMatchesAmended, hcf]

/-- C5 witness: fan-out at a concrete subscription list — the unfiltered
block and the block filtering on t1 are delivered the payload with id t1,
the block filtering on t2 is not. -/
theorem c5_witness :
    webhookOnRequest (some "k")
        [⟨"bA", none⟩, ⟨"bB", some "t1"⟩, ⟨"bC", some "t2"⟩]
        (some "k") (some payloadT1) = HttpResult.success ["bA", "bB"] :=
  (c5_amended "k" [⟨"bA", none⟩, ⟨"bB", some "t1"⟩, ⟨"bC", some "t2"⟩]
      payloadT1 none (by decide) rfl).1

/-- C6 counterexample: the claim states the timeout failure carries the
elapsed milliseconds. Two all-incomplete runs that differ in elapsed time at
the throw — 15,000 ms with instantaneous fetches, 15,300 ms with 10 ms
fetches — end with identical outcomes: the thrown Error interpolates only
the constant cap (15 seconds), the query id and the result id, so the error
cannot carry the elapsed time. -/
theorem c6_counterexample :
    (runQuery 15000 500 "q6" (Except.ok "r6")
        (List.replicate 30 (0, Except.ok (some pollIncomplete)))).endElapsed = 15000
    ∧ (runQuery 15000 500 "q6" (Except.ok "r6")
        (List.replicate 30 (10, Except.ok (some pollIncomplete)))).endElapsed = 15300
    ∧ (runQuery 15000 500 "q6" (Except.ok "r6")
        (List.replicate 30 (0, Except.ok (some pollIncomplete)))).outcome
      = (runQuery 15000 500 "q6" (Except.ok "r6")
        (List.replicate 30 (10, Except.ok (some pollIncomplete)))).outcome
    ∧ timeoutMessage 15000 "q6" "r6"
      = "Query result polling timed out after 15 seconds. Query ID: q6, Result ID: r6" := by
  exact ⟨rfl, rfl, rfl, rfl⟩

/-- C6 amended: when every poll fetch up to the deadline returns an
incomplete result (and the supplied steps cover the budget), runQuery fails
with the timeout Error whose message carries the query id, the result id and
the constant maximum duration in seconds — not the elapsed milliseconds —
and the failure is raised at or after maxDuration has elapsed. -/
theorem c6_amended (maxDur interval : Nat) (qid rid : String)
    (steps : List (Nat × Except HcError (Option Json)))
    (hall : ∀ p ∈ steps, incompleteStep p = true)
    (hlen : maxDur ≤ steps.length * interval) :
    (runQuery maxDur interval qid (Except.ok rid) steps).outcome
        = RunOutcome.timedOut (timeoutMessage maxDur qid rid)
    ∧ maxDur ≤ (runQuery maxDur interval qid (Except.ok rid) steps).endElapsed := by
  have h := pollLoop_times_out maxDur interval qid rid steps 0 hall (by omega)
  exact h

/-- C6 witness: the amended timeout behavior at a concrete thirty-step
all-incomplete run. -/
theorem c6_witness :
    (runQuery 15000 500 "q6w" (Except.ok "r6w")
        (List.replicate 30 (0, Except.ok (some pollIncomplete)))).outcome
        = RunOutcome.timedOut (timeoutMessage 15000 "q6w" "r6w")
    ∧ 15000 ≤ (runQuery 15000 500 "q6w" (Except.ok "r6w")
        (List.replicate 30 (0, Except.ok (some pollIncomplete)))).endElapsed :=
  c6_amended 15000 500 "q6w" "r6w"
    (List.replicate 30 (0, Except.ok (some pollIncomplete)))
    (by decide) (by decide)

/-- C7 counterexample: the claim states every failure of the client call is
exactly a TransportError or an ApiError. A 200 response whose non-empty body
is not valid JSON — the runtime JSON.parse throws a SyntaxError on the body
"not json" — makes the call fail with that SyntaxError, which is neither of
the two claimed kinds. -/
theorem c7_counterexample :
    isFailure (honeycombFetch "GET" "/1/auth"
        (FetchOutcome.response ⟨200, "OK", "not json"⟩)
        (fun s => if s == "not json"
          then Except.error "Unexpected token o in JSON at position 1"
          else Except.ok Json.null)) = true
    ∧ isTransportFailure (honeycombFetch "GET" "/1/auth"
        (FetchOutcome.response ⟨200, "OK", "not json"⟩)
        (fun s => if s == "not json"
          then Except.error "Unexpected token o in JSON at position 1"
          else Except.ok Json.null)) = false
    ∧ isApiFailure (honeycombFetch "GET" "/1/auth"
        (FetchOutcome.response ⟨200, "OK", "not json"⟩)
        (fun s => if s == "not json"
          then Except.error "Unexpected token o in JSON at position 1"
          else Except.ok Json.null)) = false := by
  exact ⟨rfl, rfl, rfl⟩

/-- C7 amended: failures of the client call are classified exactly as
follows — a TransportError carrying method, path and cause iff no response
was received; an ApiError carrying method, path, statusCode, statusText and
responseBody iff a non-success status was received; and additionally the
runtime SyntaxError iff a success response carried a non-empty body that
does not parse as JSON. -/
theorem c7_amended (method endpoint : String) (net : FetchOutcome)
    (parse : String → Except String Json) :
    (∀ c, net = FetchOutcome.networkFailure c →
        honeycombFetch method endpoint net parse
          = Except.error (HcError.transportError method endpoint c))
    ∧ (∀ r, net = FetchOutcome.response r → r.ok = false →
        honeycombFetch method endpoint net parse
          = Except.error (HcError.apiError method endpoint r.status
              r.statusText r.body))
    ∧ (∀ e, honeycombFetch method endpoint net parse = Except.error e →
        (∃ c, net = FetchOutcome.networkFailure c
            ∧ e = HcError.transportError method endpoint c)
        ∨ (∃ r, net = FetchOutcome.response r ∧ r.ok = false
            ∧ e = HcError.apiError method endpoint r.status r.statusText r.body)
        ∨ (∃ r msg, net = FetchOutcome.response r ∧ r.ok = true
            ∧ (r.body == "") = false ∧ parse r.body = Except.error msg
            ∧ e = HcError.jsonParseError msg)) := by
  refine ⟨?_, ?_, ?_⟩
  · intro c hc
    subst hc
    simp [honeycombFetch]
  · intro r hr hok
    subst hr
    simp [honeycombFetch, hok]
  · intro e he
    rcases net with r | c
    · by_cases hok : r.ok = true
      · by_cases hb : (r.body == "") = true
        · exfalso
          simp [honeycombFetch, hok, hb] at he
        · have hb' : (r.body == "") = false := by
            cases hv : r.body == ""
            · rfl
            · exact absurd hv hb
          rcases hp : parse r.body with msg | v
          · simp [honeycombFetch, hok, hb', hp] at he
            exact Or.inr (Or.inr ⟨r, msg, rfl, hok, hb', hp, he.symm⟩)
          · exfalso
            simp [honeycombFetch, hok, hb', hp] at he
      · have hok' : r.ok = false := by
          cases hv : r.ok
          · rfl
          · exact absurd hv hok
        simp [honeycombFetch, hok'] at he
        exact Or.inr (Or.inl ⟨r, rfl, hok', he.symm⟩)
    · simp [honeycombFetch] at he
      exact Or.inl ⟨c, rfl, he.symm⟩

/-- C7 witness: the transport classification at a concrete DNS failure. -/
theorem c7_witness :
    honeycombFetch "GET" "/1/events"
        (FetchOutcome.networkFailure "getaddrinfo ENOTFOUND")
        (fun _ => Except.ok Json.null)
      = Except.error (HcError.transportError "GET" "/1/events"
          "getaddrinfo ENOTFOUND") :=
  (c7_amended "GET" "/1/events"
      (FetchOutcome.networkFailure "getaddrinfo ENOTFOUND")
      (fun _ => Except.ok Json.null)).1 "getaddrinfo ENOTFOUND" rfl

/-- C8 confirmed: if the fetches before the n-th all return incomplete
results, the n-th returns a complete one, and the deadline check passes
before each of these fetches, runQuery emits exactly the n-th result,
performs exactly n fetches and n-1 sleeps, and at least (n-1) times the
pollInterval elapses; for the sequence false, false, true this is three
fetches, two sleeps and at least 1000 ms. -/
theorem c8_returns_nth_result (maxDur interval : Nat) (qid rid : String)
    (pre rest : List (Nat × Except HcError (Option Json))) (d : Nat) (j : Json)
    (hpre : ∀ p ∈ pre, incompleteStep p = true)
    (hnn : j.isNull = false)
    (hc : j.truthyField "complete" = true)
    (hchk : checksPass maxDur interval 0 (pre ++ [(d, Except.ok (some j))]) = true) :
    (runQuery maxDur interval qid (Except.ok rid)
        (pre ++ (d, Except.ok (some j)) :: rest)).outcome = RunOutcome.emitted j
    ∧ (runQuery maxDur interval qid (Except.ok rid)
        (pre ++ (d, Except.ok (some j)) :: rest)).fetches = pre.length + 1
    ∧ (runQuery maxDur interval qid (Except.ok rid)
        (pre ++ (d, Except.ok (some j)) :: rest)).sleepStarts.length = pre.length
    ∧ pre.length * interval ≤ (runQuery maxDur interval qid (Except.ok rid)
        (pre ++ (d, Except.ok (some j)) :: rest)).endElapsed := by
  have h := pollLoop_reaches_complete maxDur interval qid rid d j rest
    hnn hc pre 0 hpre hchk
  exact ⟨h.1, h.2.1, h.2.2.1, by simpa using h.2.2.2⟩

/-- C8 witness: the poll sequence false, false, true with instantaneous
fetches returns the third result after three fetches, two sleeps and 1000 ms
elapsed. -/
theorem c8_witness :
    (runQuery 15000 500 "q8w" (Except.ok "r8w")
        [(0, Except.ok (some pollIncomplete)), (0, Except.ok (some pollIncomplete)),
          (0, Except.ok (some pollComplete))]).outcome
        = RunOutcome.emitted pollComplete
    ∧ (runQuery 15000 500 "q8w" (Except.ok "r8w")
        [(0, Except.ok (some pollIncomplete)), (0, Except.ok (some pollIncomplete)),
          (0, Except.ok (some pollComplete))]).fetches = 3
    ∧ (runQuery 15000 500 "q8w" (Except.ok "r8w")
        [(0, Except.ok (some pollIncomplete)), (0, Except.ok (some pollIncomplete)),
          (0, Except.ok (some pollComplete))]).sleepStarts.length = 2
    ∧ 1000 ≤ (runQuery 15000 500 "q8w" (Except.ok "r8w")
        [(0, Except.ok (some pollIncomplete)), (0, Except.ok (some pollIncomplete)),
          (0, Except.ok (some pollComplete))]).endElapsed :=
  c8_returns_nth_result 15000 500 "q8w" "r8w"
    [(0, Except.ok (some pollIncomplete)), (0, Except.ok (some pollIncomplete))]
    [] 0 pollComplete (by decide) (by decide) (by decide) (by decide)

/-- C9 confirmed: on a success (2xx) response, honeycombFetch returns
undefined when the body is empty, and otherwise the JSON value parsed from
the body. -/
theorem c9_success_body (method endpoint : String) (r : HttpResponse)
    (parse : String → Except String Json) (hok : r.ok = true) :
    (r.body = "" →
        honeycombFetch method endpoint (FetchOutcome.response r) parse
          = Except.ok none)
    ∧ (∀ j, parse r.body = Except.ok j → (r.body == "") = false →
        honeycombFetch method endpoint (FetchOutcome.response r) parse
          = Except.ok (some j)) := by
  constructor
  · intro hb
    simp [honeycombFetch, hok, hb]
  · intro j hp hb
    simp [honeycombFetch, hok, hb, hp]

/-- C9 witness: an empty 200 body yields undefined; a parsed non-empty 200
body yields the parsed value. -/
theorem c9_witness :
    honeycombFetch "DELETE" "/1/recipients/r9"
        (FetchOutcome.response ⟨200, "OK", ""⟩)
        (fun _ => Except.ok Json.null) = Except.ok none
    ∧ honeycombFetch "GET" "/1/auth"
        (FetchOutcome.response ⟨200, "OK", "[1]"⟩)
        (fun _ => Except.ok (Json.arr [Json.num 1]))
      = Except.ok (some (Json.arr [Json.num 1])) :=
  ⟨(c9_success_body "DELETE" "/1/recipients/r9" ⟨200, "OK", ""⟩
      (fun _ => Except.ok Json.null) (by decide)).1 rfl,
    (c9_success_body "GET" "/1/auth" ⟨200, "OK", "[1]"⟩
      (fun _ => Except.ok (Json.arr [Json.num 1])) (by decide)).2
      (Json.arr [Json.num 1]) rfl (by decide)⟩

/-- C10 confirmed: when onDrain finds a falsy stored recipient id it returns
drained at once, deleting nothing and leaving the store — in particular
webhook_secret — untouched; and an install that stored a fresh secret and
then failed at recipient creation leaves exactly such a state, whose secret
survives a subsequent successful drain. -/
theorem c10_orphan_secret (store : Storage) (del : Except HcError (Option Json))
    (authVal : Option Json) (newSecret : String) (err : HcError)
    (hrid : strFalsy store.recipientId = true) :
    onDrain store del
        = ⟨DrainStatus.drained, store, [Effect.kvGet "webhook_recipient_id"]⟩
    ∧ (onSync store (Except.ok authVal) newSecret (Except.error err)).store.secret
        = some newSecret
    ∧ (onSync store (Except.ok authVal) newSecret (Except.error err)).store.recipientId
        = store.recipientId
    ∧ onDrain (onSync store (Except.ok authVal) newSecret (Except.error err)).store del
        = ⟨DrainStatus.drained,
            (onSync store (Except.ok authVal) newSecret (Except.error err)).store,
            [Effect.kvGet "webhook_recipient_id"]⟩ := by
  refine ⟨?_, ?_, ?_, ?_⟩ <;> simp [onSync, onDrain, hrid]

/-- C10 witness: the orphan-secret scenario at a concrete failed install
followed by a drain. -/
theorem c10_witness :
    onDrain ⟨none, none⟩ (Except.ok none)
        = ⟨DrainStatus.drained, ⟨none, none⟩, [Effect.kvGet "webhook_recipient_id"]⟩
    ∧ (onSync ⟨none, none⟩ (Except.ok none) "sec10"
        (Except.error (HcError.transportError "POST" "/1/recipients" "socket hang up"))).store.secret
        = some "sec10"
    ∧ (onSync ⟨none, none⟩ (Except.ok none) "sec10"
        (Except.error (HcError.transportError "POST" "/1/recipients" "socket hang up"))).store.recipientId
        = (⟨none, none⟩ : Storage).recipientId
    ∧ onDrain (onSync ⟨none, none⟩ (Except.ok none) "sec10"
          (Except.error (HcError.transportError "POST" "/1/recipients" "socket hang up"))).store
        (Except.ok none)
        = ⟨DrainStatus.drained,
            (onSync ⟨none, none⟩ (Except.ok none) "sec10"
              (Except.error (HcError.transportError "POST" "/1/recipients" "socket hang up"))).store,
            [Effect.kvGet "webhook_recipient_id"]⟩ :=
  c10_orphan_secret ⟨none, none⟩ (Except.ok none) none "sec10"
    (HcError.transportError "POST" "/1/recipients" "socket hang up")
    (by decide)

end Honeycomb
